import Mathlib

/-!
Shallow embedding of the chat-bot session core: the configuration record
with dict-style access from `ModeConfiguration.py`, and the session methods
`__init__`, `save_conversation`, `load_conversation`, `adjust_settings`,
`chat` and `clear_history` from `chatbot.py`.

Strings are lists of characters; JSON optionality is `Option`; the two
blocking `input()` confirmations inside `load_conversation` are explicit
boolean parameters; the external generation call is an explicit result
value passed in.
-/

/-- Python strings, modelled as lists of characters. -/
abbrev Str := List Char

/-- Message roles occurring in the source: `"developer"` is written by
`__init__` and `clear_history`, `"system"` by the history rebuild in
`load_conversation`, `"user"` and `"assistant"` by `chat`. -/
inductive Role where
  | developer
  | system
  | user
  | assistant
deriving DecidableEq

/-- One entry of `conversation_history`: a dict
with a `"role"` and a `"content"` key. -/
structure Message where
  role : Role
  content : Str
deriving DecidableEq

/-- `ModeConfiguration` (ModeConfiguration.py, lines 20-42). -/
structure ModeConfiguration where
  model : Str
  max_tokens : Int
  temperature : ℚ
  system_prompt : Option Str
deriving DecidableEq

/-- The JSON object stored under the `"settings"` key of a saved file,
each field possibly absent. -/
structure RawSettings where
  model : Option Str
  max_tokens : Option Int
  temperature : Option ℚ
  system_prompt : Option Str
deriving DecidableEq

/-- `ModeConfiguration.to_dict` (ModeConfiguration.py, lines 120-134):
every key is written; `system_prompt` may be null. -/
def ModeConfiguration.to_dict (c : ModeConfiguration) : RawSettings :=
  { model := some c.model
  , max_tokens := some c.max_tokens
  , temperature := some c.temperature
  , system_prompt := c.system_prompt }

/-- `ModeConfiguration.from_dict` (ModeConfiguration.py, lines 136-155):
`data["model"]`, `data["max_tokens"]` and `data["temperature"]` raise
`KeyError` when absent (the `none` result); `data.get("system_prompt",
None)` never fails. No field is validated. -/
def ModeConfiguration.from_dict (d : RawSettings) : Option ModeConfiguration :=
  match d.model, d.max_tokens, d.temperature with
  | some m, some mt, some t =>
      some { model := m, max_tokens := mt, temperature := t,
             system_prompt := d.system_prompt }
  | _, _, _ => none

/-- `self.stats` (chatbot.py, lines 82-86); `session_start` is an abstract
timestamp value. -/
structure Stats where
  total_messages : Nat
  total_tokens_used : Nat
  session_start : Nat
deriving DecidableEq

/-- The mutable state of a `ChatBot` instance relevant to the session
core: allow-list, configuration, conversation log and statistics. -/
structure ChatBotState where
  available_models : List Str
  settings : ModeConfiguration
  conversation_history : List Message
  stats : Stats
deriving DecidableEq

/-- Python `s or ""` applied to the optional system prompt. -/
def orEmpty : Option Str → Str
  | some s => s
  | none => []

/-- The conversation/stats part of `ChatBot.__init__` (chatbot.py, lines
74-86), after `load_model_configuration` produced `cfg`. -/
def initState (models : List Str) (cfg : ModeConfiguration) (now : Nat) :
    ChatBotState :=
  { available_models := models
  , settings := cfg
  , conversation_history :=
      [{ role := Role.developer, content := orEmpty cfg.system_prompt }]
  , stats := { total_messages := 0, total_tokens_used := 0,
               session_start := now } }

/-- The JSON file written by `save_conversation` and read back by
`load_conversation`; each top-level key possibly absent. -/
structure RawFile where
  timestamp : Option Nat
  settings : Option RawSettings
  conversation : Option (List Message)
  stats : Option Stats
deriving DecidableEq

/-- `ChatBot.save_conversation` (chatbot.py, lines 192-201): the object
written to disk; `conversation` is the history without its first entry. -/
def save_conversation (st : ChatBotState) (now : Nat) : RawFile :=
  { timestamp := some now
  , settings := some st.settings.to_dict
  , conversation := some (st.conversation_history.drop 1)
  , stats := some st.stats }

/-- `ChatBot.load_conversation` (chatbot.py, lines 246-288). `file = none`
models a failed `json.load`; `overwriteConfirm` and `mergeConfirm` are the
two `input()` confirmations, in source order. Each `except` path returns
the state exactly as mutated up to the point of the raised `KeyError`:
in particular the history has already been replaced when
`data["conversation"]` is looked up. -/
def load_conversation (st : ChatBotState) (file : Option RawFile)
    (overwriteConfirm : Bool) (mergeConfirm : Bool) : ChatBotState :=
  match file with
  | none => st
  | some data =>
    match data.settings with
    | none => st
    | some raws =>
      match ModeConfiguration.from_dict raws with
      | none => st
      | some setting =>
        let st1 : ChatBotState :=
          { st with conversation_history :=
              [{ role := Role.system,
                 content := orEmpty setting.system_prompt }] }
        if st1.conversation_history.length > 1 ∧ ¬ overwriteConfirm then
          st1
        else
          match data.conversation with
          | none => st1
          | some conv =>
            let st2 : ChatBotState :=
              { st1 with conversation_history :=
                  st1.conversation_history ++ conv }
            if mergeConfirm then { st2 with settings := setting } else st2

/-- In-place update of `conversation_history[0]["content"]`
(chatbot.py, line 356); the history is never empty at that call site. -/
def setHeadContent : List Message → Str → List Message
  | [], _ => []
  | m :: rest, c => { m with content := c } :: rest

/-- Argument to `adjust_settings`: the dispatcher hands over the raw
argument string; for the numeric fields the result of `int(value)` /
`float(value)` is made explicit, `none` modelling the caught
`ValueError`. -/
inductive SettingInput where
  | model (v : Str)
  | max_tokens (v : Option Int)
  | temperature (v : Option ℚ)
  | system_prompt (v : Str)

/-- Operator-visible outcome of `adjust_settings`: success, success with a
truncation warning, or an error message with no state change. -/
inductive AdjustOutcome where
  | updated
  | updatedTruncated
  | rejected
deriving DecidableEq

/-- `ChatBot.adjust_settings` (chatbot.py, lines 314-362). -/
def adjust_settings (st : ChatBotState) (inp : SettingInput) :
    ChatBotState × AdjustOutcome :=
  match inp with
  | .model v =>
      if v ∈ st.available_models then
        ({ st with settings := { st.settings with model := v } },
         AdjustOutcome.updated)
      else (st, AdjustOutcome.rejected)
  | .max_tokens v =>
      match v with
      | some n =>
          if n > 0 then
            ({ st with settings := { st.settings with max_tokens := n } },
             AdjustOutcome.updated)
          else (st, AdjustOutcome.rejected)
      | none => (st, AdjustOutcome.rejected)
  | .temperature v =>
      match v with
      | some t =>
          if 0 ≤ t ∧ t ≤ 2 then
            ({ st with settings := { st.settings with temperature := t } },
             AdjustOutcome.updated)
          else (st, AdjustOutcome.rejected)
      | none => (st, AdjustOutcome.rejected)
  | .system_prompt v =>
      if v ≠ [] then
        if v.length > 1000 then
          ({ st with
              settings :=
                { st.settings with system_prompt := some (v.take 1000) }
            , conversation_history :=
                setHeadContent st.conversation_history (v.take 1000) },
           AdjustOutcome.updatedTruncated)
        else
          ({ st with
              settings := { st.settings with system_prompt := some v }
            , conversation_history :=
                setHeadContent st.conversation_history v },
           AdjustOutcome.updated)
      else (st, AdjustOutcome.rejected)

/-- The external generation call as observed by `ChatBot.chat`: `ok`
carries `response.output_text` and the optional `usage.total_tokens`,
`err` the exception message. -/
inductive GenResult where
  | ok (text : Str) (usage : Option Nat)
  | err (msg : Str)

/-- The error string returned by `chat` on a failed call
(chatbot.py, line 456). -/
def chatErrorText (msg : Str) : Str := "錯誤：".toList ++ msg

/-- `ChatBot.chat` (chatbot.py, lines 425-456). The user message is
appended before the external call; on success the assistant reply is
appended and the statistics updated; on failure the exception message is
returned as the result string with no further mutation. -/
def chat (st : ChatBotState) (message : Str) (gen : GenResult) :
    ChatBotState × Str :=
  let st1 : ChatBotState :=
    { st with conversation_history :=
        st.conversation_history ++
          [{ role := Role.user, content := message }] }
  match gen with
  | .ok text usage =>
      let st2 : ChatBotState :=
        { st1 with conversation_history :=
            st1.conversation_history ++
              [{ role := Role.assistant, content := text }] }
      (⟨st2.available_models, st2.settings, st2.conversation_history,
        { st2.stats with
            total_messages := st2.stats.total_messages + 1
          , total_tokens_used := st2.stats.total_tokens_used +
              (match usage with | some u => u | none => 0) }⟩, text)
  | .err m => (st1, chatErrorText m)

/-- `ChatBot.clear_history` (chatbot.py, lines 470-476). -/
def clear_history (st : ChatBotState) : ChatBotState :=
  { st with conversation_history :=
      [{ role := Role.developer,
         content := orEmpty st.settings.system_prompt }] }

/-- The configuration validity the spec states as an invariant: model in
the allow-list, positive `max_tokens`, `temperature` in [0, 2], system
prompt at most 1000 characters. -/
def validConfig (models : List Str) (c : ModeConfiguration) : Prop :=
  c.model ∈ models ∧ 0 < c.max_tokens ∧
    0 ≤ c.temperature ∧ c.temperature ≤ 2 ∧
    (orEmpty c.system_prompt).length ≤ 1000

instance (models : List Str) (c : ModeConfiguration) :
    Decidable (validConfig models c) := by
  unfold validConfig; infer_instance

/-- A concrete configuration used in concrete instantiations. -/
def exCfg : ModeConfiguration :=
  { model := "gpt-4o".toList, max_tokens := 1024, temperature := 1,
    system_prompt := some "hi".toList }

/-- A concrete mid-session state: the developer entry plus one completed
exchange, with non-zero statistics. -/
def exSt : ChatBotState :=
  { available_models := ["gpt-4".toList, "gpt-4o".toList]
  , settings := exCfg
  , conversation_history :=
      [{ role := Role.developer, content := "hi".toList },
       { role := Role.user, content := "q".toList },
       { role := Role.assistant, content := "a".toList }]
  , stats := { total_messages := 5, total_tokens_used := 42,
               session_start := 0 } }

/-- A freshly initialised state with zeroed statistics. -/
def exFresh : ChatBotState := initState exSt.available_models exCfg 7

/-- A file whose settings decode but which lacks the conversation key. -/
def exFileNoConv : RawFile :=
  { timestamp := none, settings := some exCfg.to_dict,
    conversation := none, stats := none }

/-- A decodable file whose stored settings violate every validation rule
of the configuration model. -/
def exFileBad : RawFile :=
  { timestamp := none
  , settings := some
      { model := some "bogus".toList, max_tokens := some (-3),
        temperature := some 9, system_prompt := none }
  , conversation := some [], stats := none }

/-- C1 fails as stated: saving a session whose stats record five messages
and loading that file into a fresh session (both confirmations given)
leaves the fresh session's zeroed stats in place instead of restoring the
saved ones — `stats` and `timestamp` are written by save but never read
back by load. -/
theorem c1_counterexample :
    (load_conversation exFresh (some (save_conversation exSt 99))
        true true).stats ≠ exSt.stats := by decide

/-- C1 amended: loading the file saved from any session `s` into any
session `st0` with the config merge confirmed restores the settings and
the conversation body `history[1:]` exactly and rebuilds `history[0]`
from the saved system prompt, but keeps `st0`'s own stats: the saved
`stats` and `timestamp` fields are ignored by the load path. -/
theorem c1_roundtrip (s st0 : ChatBotState) (now : Nat) (b : Bool) :
    (load_conversation st0 (some (save_conversation s now)) b true).settings
        = s.settings
  ∧ (load_conversation st0 (some (save_conversation s now))
        b true).conversation_history
        = { role := Role.system, content := orEmpty s.settings.system_prompt }
            :: s.conversation_history.drop 1
  ∧ (load_conversation st0 (some (save_conversation s now)) b true).stats
        = st0.stats := by
  refine ⟨?_, ?_, ?_⟩ <;>
    simp [load_conversation, save_conversation, ModeConfiguration.to_dict,
          ModeConfiguration.from_dict]

/-- C4 fails as stated: on a failed generation call the turn is not
counted — the statistics are unchanged — and no assistant entry is
appended; only the user message remains in the history. -/
theorem c4_counterexample :
    (chat exSt "q2".toList (GenResult.err "boom".toList)).1.stats
        = exSt.stats
  ∧ (chat exSt "q2".toList (GenResult.err "boom".toList)).1.conversation_history
        = exSt.conversation_history ++
            [{ role := Role.user, content := "q2".toList }]
  ∧ exSt.stats.total_messages + 1 ≠ exSt.stats.total_messages := by decide

/-- C4 amended: when the external generation call fails, the user message
remains appended (no rollback) and the error string is returned as the
result rather than propagated, but no assistant entry is appended to the
history and `stats.total_messages` is not incremented. -/
theorem c4_failed_generation (st : ChatBotState) (message e : Str) :
    (chat st message (GenResult.err e)).1.conversation_history
        = st.conversation_history ++
            [{ role := Role.user, content := message }]
  ∧ (chat st message (GenResult.err e)).2 = chatErrorText e
  ∧ (chat st message (GenResult.err e)).1.stats = st.stats
  ∧ (chat st message (GenResult.err e)).1.settings = st.settings :=
  ⟨rfl, rfl, rfl, rfl⟩

/-- C8: clearing the history always yields the single developer entry
carrying the current system prompt, and the statistics are untouched. -/
theorem c8_clear (st : ChatBotState) :
    (clear_history st).conversation_history
        = [{ role := Role.developer,
             content := orEmpty st.settings.system_prompt }]
  ∧ (clear_history st).stats = st.stats :=
  ⟨rfl, rfl⟩

/-- C2 fails as stated: after a successful load the first history entry
carries role `"system"`, not `"developer"`. -/
theorem c2_counterexample :
    ((load_conversation exSt (some (save_conversation exSt 0)) true
        true).conversation_history.head?.map Message.role)
      = some Role.system
  ∧ Role.system ≠ Role.developer := by decide

/-- C2 amended: startup initialisation, clear and a prompt change keep the
first conversation entry's role at `"developer"`, but a load whose
settings decode rebuilds the first entry with role `"system"`. -/
theorem c2_head_role (models : List Str) (cfg : ModeConfiguration)
    (now : Nat) (st : ChatBotState) (v : Str) (m : Message) (data : RawFile)
    (raws : RawSettings) (setting : ModeConfiguration) (b mc : Bool) :
    ((initState models cfg now).conversation_history.head?.map Message.role
        = some Role.developer)
  ∧ ((clear_history st).conversation_history.head?.map Message.role
        = some Role.developer)
  ∧ (st.conversation_history.head? = some m →
      (adjust_settings st
          (SettingInput.system_prompt v)).1.conversation_history.head?.map
          Message.role = some m.role)
  ∧ (data.settings = some raws →
      ModeConfiguration.from_dict raws = some setting →
      (load_conversation st (some data) b mc).conversation_history.head?.map
          Message.role = some Role.system) := by
  refine ⟨rfl, rfl, ?_, ?_⟩
  · intro hm
    cases hh : st.conversation_history with
    | nil => rw [hh] at hm; cases hm
    | cons a rest =>
      rw [hh] at hm
      injection hm with hm'
      subst hm'
      by_cases hv : v = []
      · simp [adjust_settings, hv, hh]
      · by_cases hl : v.length > 1000 <;>
          simp [adjust_settings, hv, hl, hh, setHeadContent]
  · intro hs hd
    cases hc : data.conversation <;> cases mc <;>
      simp [load_conversation, hs, hd, hc]

/-- C2 witness: the amended statement instantiated at the concrete
mid-session state, a concrete prompt change and the concrete
settings-only file. -/
theorem c2_witness :
    exSt.conversation_history.head?
        = some { role := Role.developer, content := "hi".toList }
  ∧ exFileNoConv.settings = some exCfg.to_dict
  ∧ ModeConfiguration.from_dict exCfg.to_dict = some exCfg
  ∧ (adjust_settings exSt
        (SettingInput.system_prompt "x".toList)).1.conversation_history.head?.map
        Message.role = some Role.developer
  ∧ (load_conversation exSt (some exFileNoConv) true
        true).conversation_history.head?.map Message.role
        = some Role.system := by
  refine ⟨rfl, rfl, rfl, ?_, ?_⟩
  · exact (c2_head_role [] exCfg 0 exSt "x".toList
      { role := Role.developer, content := "hi".toList } exFileNoConv
      exCfg.to_dict exCfg true true).2.2.1 rfl
  · exact (c2_head_role [] exCfg 0 exSt "x".toList
      { role := Role.developer, content := "hi".toList } exFileNoConv
      exCfg.to_dict exCfg true true).2.2.2 rfl rfl

/-- C3 fails as stated: a file whose settings decode but which lacks the
`conversation` key makes the load fail only after the in-memory history
has already been replaced, so the prior conversation is lost. -/
theorem c3_counterexample :
    (load_conversation exSt (some exFileNoConv) true
        true).conversation_history ≠ exSt.conversation_history := by decide

/-- C3 amended: when decoding fails before the `conversation` key is read
(unparsable data, missing `settings`, incomplete settings) the whole prior
state is untouched; when the settings decode but `conversation` is
missing, the configuration and stats are untouched but the history has
already been replaced by the single entry rebuilt from the loaded system
prompt. -/
theorem c3_load_failure (st : ChatBotState) (b mc : Bool) :
    load_conversation st none b mc = st
  ∧ (∀ data : RawFile, data.settings = none →
      load_conversation st (some data) b mc = st)
  ∧ (∀ (data : RawFile) (raws : RawSettings), data.settings = some raws →
      ModeConfiguration.from_dict raws = none →
      load_conversation st (some data) b mc = st)
  ∧ (∀ (data : RawFile) (raws : RawSettings)
        (setting : ModeConfiguration),
      data.settings = some raws →
      ModeConfiguration.from_dict raws = some setting →
      data.conversation = none →
      load_conversation st (some data) b mc
        = { st with conversation_history :=
              [{ role := Role.system,
                 content := orEmpty setting.system_prompt }] }) := by
  refine ⟨rfl, ?_, ?_, ?_⟩
  · intro data hs
    simp [load_conversation, hs]
  · intro data raws hs hd
    simp [load_conversation, hs, hd]
  · intro data raws setting hs hd hc
    simp [load_conversation, hs, hd, hc]

/-- C3 witness: the amended statement's last case instantiated at the
concrete mid-session state and the concrete settings-only file. -/
theorem c3_witness :
    exFileNoConv.settings = some exCfg.to_dict
  ∧ ModeConfiguration.from_dict exCfg.to_dict = some exCfg
  ∧ exFileNoConv.conversation = none
  ∧ load_conversation exSt (some exFileNoConv) true true
      = { exSt with conversation_history :=
            [{ role := Role.system,
               content := orEmpty exCfg.system_prompt }] } :=
  ⟨rfl, rfl, rfl,
    (c3_load_failure exSt true true).2.2.2 exFileNoConv exCfg.to_dict exCfg
      rfl rfl rfl⟩

/-- C5 fails as stated: loading a file whose stored settings violate every
validation rule and confirming the config merge installs them unvalidated,
breaking the configuration invariant. -/
theorem c5_counterexample :
    validConfig exSt.available_models exSt.settings
  ∧ ¬ validConfig
      (load_conversation exSt (some exFileBad) true true).available_models
      (load_conversation exSt (some exFileBad) true true).settings := by
  decide

/-- C5 amended: the field-adjustment path does validate before committing
and preserves the joint validity of all four fields, but the load path
installs the decoded settings without any validation when the merge is
confirmed, so the invariant does not survive a load. -/
theorem c5_adjust_preserves_valid (st : ChatBotState) (inp : SettingInput)
    (h : validConfig st.available_models st.settings) :
    validConfig (adjust_settings st inp).1.available_models
      (adjust_settings st inp).1.settings := by
  obtain ⟨h1, h2, h3, h4, h5⟩ := h
  cases inp with
  | model v =>
      by_cases hv : v ∈ st.available_models
      · simp only [adjust_settings, if_pos hv]
        exact ⟨hv, h2, h3, h4, h5⟩
      · simp only [adjust_settings, if_neg hv]
        exact ⟨h1, h2, h3, h4, h5⟩
  | max_tokens v =>
      cases v with
      | none => exact ⟨h1, h2, h3, h4, h5⟩
      | some n =>
          by_cases hn : n > 0
          · simp only [adjust_settings, if_pos hn]
            exact ⟨h1, hn, h3, h4, h5⟩
          · simp only [adjust_settings, if_neg hn]
            exact ⟨h1, h2, h3, h4, h5⟩
  | temperature v =>
      cases v with
      | none => exact ⟨h1, h2, h3, h4, h5⟩
      | some t =>
          by_cases ht : 0 ≤ t ∧ t ≤ 2
          · simp only [adjust_settings, if_pos ht]
            exact ⟨h1, h2, ht.1, ht.2, h5⟩
          · simp only [adjust_settings, if_neg ht]
            exact ⟨h1, h2, h3, h4, h5⟩
  | system_prompt v =>
      by_cases hv : v = []
      · simp only [adjust_settings, hv, ne_eq, not_true_eq_false, if_false]
        exact ⟨h1, h2, h3, h4, h5⟩
      · by_cases hl : v.length > 1000
        · simp only [adjust_settings, if_pos hv, if_pos hl, ne_eq, hv,
            not_false_eq_true, if_true]
          refine ⟨h1, h2, h3, h4, ?_⟩
          simp only [orEmpty, List.length_take]
          exact min_le_left 1000 v.length
        · simp only [adjust_settings, ne_eq, hv, not_false_eq_true, if_true,
            if_neg hl]
          refine ⟨h1, h2, h3, h4, ?_⟩
          simp only [orEmpty]
          exact Nat.le_of_not_lt hl

/-- C5 witness: the amended preservation statement instantiated at the
concrete valid mid-session state and a concrete temperature change. -/
theorem c5_witness :
    validConfig exSt.available_models exSt.settings
  ∧ validConfig
      (adjust_settings exSt (SettingInput.temperature (some 1))).1.available_models
      (adjust_settings exSt (SettingInput.temperature (some 1))).1.settings :=
  ⟨by decide,
   c5_adjust_preserves_valid exSt (SettingInput.temperature (some 1))
     (by decide)⟩

/-- C6: loading a decodable file with the config merge declined keeps the
active settings — in particular model, max_tokens and temperature —
exactly as they were, while `history[1:]` becomes the loaded
conversation. -/
theorem c6_merge_declined (st : ChatBotState) (data : RawFile)
    (raws : RawSettings) (setting : ModeConfiguration)
    (conv : List Message) (b : Bool)
    (hs : data.settings = some raws)
    (hd : ModeConfiguration.from_dict raws = some setting)
    (hc : data.conversation = some conv) :
    (load_conversation st (some data) b false).settings = st.settings
  ∧ (load_conversation st (some data) b false).conversation_history.drop 1
      = conv := by
  constructor <;> simp [load_conversation, hs, hd, hc]

/-- C6 witness: saving the concrete mid-session state and loading it into
the fresh session with the merge declined keeps the fresh settings and
restores the saved conversation body. -/
theorem c6_witness :
    (save_conversation exSt 3).settings = some exCfg.to_dict
  ∧ ModeConfiguration.from_dict exCfg.to_dict = some exCfg
  ∧ (save_conversation exSt 3).conversation
      = some (exSt.conversation_history.drop 1)
  ∧ (load_conversation exFresh (some (save_conversation exSt 3)) true
        false).settings = exFresh.settings
  ∧ (load_conversation exFresh (some (save_conversation exSt 3)) true
        false).conversation_history.drop 1
      = exSt.conversation_history.drop 1 :=
  ⟨rfl, rfl, rfl,
   (c6_merge_declined exFresh (save_conversation exSt 3) exCfg.to_dict exCfg
      (exSt.conversation_history.drop 1) true rfl rfl rfl).1,
   (c6_merge_declined exFresh (save_conversation exSt 3) exCfg.to_dict exCfg
      (exSt.conversation_history.drop 1) true rfl rfl rfl).2⟩

/-- C7: setting the temperature succeeds exactly when the input parses to
a number `t` with `0 ≤ t ≤ 2`; a successful set stores `t` and changes
nothing else, and any rejection leaves the whole state unchanged. -/
theorem c7_temperature (st : ChatBotState) (v : Option ℚ) :
    ((adjust_settings st (SettingInput.temperature v)).2
        = AdjustOutcome.updated ↔ ∃ t, v = some t ∧ 0 ≤ t ∧ t ≤ 2)
  ∧ (∀ t : ℚ, v = some t → 0 ≤ t → t ≤ 2 →
      (adjust_settings st (SettingInput.temperature v)).1
        = { st with settings := { st.settings with temperature := t } })
  ∧ ((adjust_settings st (SettingInput.temperature v)).2
        = AdjustOutcome.rejected →
      (adjust_settings st (SettingInput.temperature v)).1 = st) := by
  refine ⟨?_, ?_, ?_⟩
  · cases v with
    | none => simp [adjust_settings]
    | some t =>
        by_cases h : 0 ≤ t ∧ t ≤ 2
        · simp only [adjust_settings, if_pos h]
          constructor
          · intro _
            exact ⟨t, rfl, h.1, h.2⟩
          · intro _
            trivial
        · simp only [adjust_settings, if_neg h]
          constructor
          · intro hcon
            exact absurd hcon (by decide)
          · rintro ⟨t1, ht1, h0, h2a⟩
            injection ht1 with he
            subst he
            exact absurd ⟨h0, h2a⟩ h
  · intro t ht h0 h2a
    subst ht
    simp only [adjust_settings, if_pos (And.intro h0 h2a)]
  · cases v with
    | none =>
        intro _
        rfl
    | some t =>
        by_cases h : 0 ≤ t ∧ t ≤ 2
        · simp only [adjust_settings, if_pos h]
          intro hcon
          exact absurd hcon (by decide)
        · simp only [adjust_settings, if_neg h]
          intro _
          trivial

/-- C7 witness: the temperature 3/2 is accepted and stored at the
concrete mid-session state. -/
theorem c7_witness :
    ((adjust_settings exSt (SettingInput.temperature (some (3/2)))).2
        = AdjustOutcome.updated)
  ∧ (adjust_settings exSt (SettingInput.temperature (some (3/2)))).1
      = { exSt with settings :=
            { exSt.settings with temperature := 3/2 } } := by
  constructor
  · exact (c7_temperature exSt (some (3/2))).1.mpr
      ⟨3/2, rfl, by norm_num, by norm_num⟩
  · exact (c7_temperature exSt (some (3/2))).2.1 (3/2) rfl
      (by norm_num) (by norm_num)

/-- C9: a non-empty prompt longer than 1000 characters is stored
truncated to exactly its first 1000 characters with a truncation warning,
and the same truncated value is written into the first history entry in
the same step, so configuration and history never disagree. -/
theorem c9_truncate (st : ChatBotState) (v : Str) (m : Message)
    (hm : st.conversation_history.head? = some m)
    (hv : 1000 < v.length) :
    (adjust_settings st
        (SettingInput.system_prompt v)).1.settings.system_prompt
        = some (v.take 1000)
  ∧ (adjust_settings st
        (SettingInput.system_prompt v)).1.conversation_history.head?
        = some { m with content := v.take 1000 }
  ∧ (adjust_settings st (SettingInput.system_prompt v)).2
        = AdjustOutcome.updatedTruncated := by
  have hne : v ≠ [] := by
    intro h
    subst h
    simp at hv
  cases hh : st.conversation_history with
  | nil => rw [hh] at hm; cases hm
  | cons a rest =>
      rw [hh] at hm
      injection hm with hm'
      subst hm'
      refine ⟨?_, ?_, ?_⟩ <;>
        simp [adjust_settings, hne, hv, hh, setHeadContent]

/-- C9 witness: a 1500-character prompt at the concrete mid-session state
is stored as exactly its first 1000 characters with the warning. -/
theorem c9_witness :
    exSt.conversation_history.head?
        = some { role := Role.developer, content := "hi".toList }
  ∧ 1000 < (List.replicate 1500 'a').length
  ∧ (adjust_settings exSt
        (SettingInput.system_prompt
          (List.replicate 1500 'a'))).1.settings.system_prompt
        = some (List.replicate 1000 'a')
  ∧ (adjust_settings exSt
        (SettingInput.system_prompt (List.replicate 1500 'a'))).2
        = AdjustOutcome.updatedTruncated := by
  have h := c9_truncate exSt (List.replicate 1500 'a')
    { role := Role.developer, content := "hi".toList } rfl
    (by rw [List.length_replicate]; norm_num)
  refine ⟨rfl, by rw [List.length_replicate]; norm_num, ?_, h.2.2⟩
  rw [h.1]
  norm_num [List.take_replicate]

/-- C10: the overwrite-confirmation branch of the load path is dead code:
the guard tests the history length right after the history was replaced by
a single-element list, so the load result never depends on the overwrite
confirmation, and for any file whose settings decode the resulting
history is independent of the prior conversation history — the previous
conversation is discarded without the confirmation ever firing. -/
theorem c10_overwrite_guard (st : ChatBotState) (data : RawFile)
    (b₁ b₂ mc : Bool) (raws : RawSettings) (setting : ModeConfiguration)
    (hs : data.settings = some raws)
    (hd : ModeConfiguration.from_dict raws = some setting) :
    load_conversation st (some data) b₁ mc
        = load_conversation st (some data) b₂ mc
  ∧ ∀ h2 : List Message,
      (load_conversation { st with conversation_history := h2 }
          (some data) b₁ mc).conversation_history
        = (load_conversation st (some data) b₁ mc).conversation_history := by
  constructor
  · cases hc : data.conversation <;> cases mc <;>
      simp [load_conversation, hs, hd, hc]
  · intro h2
    cases hc : data.conversation <;> cases mc <;>
      simp [load_conversation, hs, hd, hc]

/-- C10 witness: at the concrete state and the concrete saved file the
load result is the same for both answers to the overwrite confirmation,
and the resulting history does not depend on the prior history. -/
theorem c10_witness :
    (save_conversation exSt 3).settings = some exCfg.to_dict
  ∧ ModeConfiguration.from_dict exCfg.to_dict = some exCfg
  ∧ load_conversation exSt (some (save_conversation exSt 3)) true false
      = load_conversation exSt (some (save_conversation exSt 3)) false false
  ∧ (load_conversation { exSt with conversation_history := [] }
        (some (save_conversation exSt 3)) true false).conversation_history
      = (load_conversation exSt (some (save_conversation exSt 3))
          true false).conversation_history :=
  ⟨rfl, rfl,
   (c10_overwrite_guard exSt (save_conversation exSt 3) true false false
      exCfg.to_dict exCfg rfl rfl).1,
   (c10_overwrite_guard exSt (save_conversation exSt 3) true false false
      exCfg.to_dict exCfg rfl rfl).2 []⟩
